import Mathlib

/-!
Verification of the news-record normalization and aggregation pipeline of the
stock_ai_system repository.

The embedded code is `get_ultra_comprehensive_news` (src/stock_data_analyzer.py,
lines 713-936) together with its helpers `_format_timestamp` (lines 276-291) and
the publisher-resolution line of `get_news` (lines 245-246).  The same
extraction logic is duplicated in src/comprehensive_news_analyzer.py
(get_yahoo_finance_news); where a claim cites both, the shared logic is embedded
once from the stock_data_analyzer variant.

Python's dynamic values are modelled by the inductive `PyVal` (dictionaries as
association lists with unique keys, as produced by the upstream JSON decoder).
Raising code is modelled with `Except PyErr`; the in-place mutations of the
`content_analysis` accumulator are modelled by recording, per item, the
mutations it performs (`ItemEffect`) and applying them to the threaded
`ContentAnalysis` state in input order, so that a mutation performed before an
exception is kept, exactly as in the source.

Deliberate modelling notes (none affects a claimed property):
* `datetime.fromtimestamp` uses the host local time zone; it is embedded as the
  UTC civil-calendar conversion, with Python's datetime year range 1..9999 as
  the validity domain (out-of-range timestamps raise, and `_format_timestamp`
  swallows the exception and returns "N/A").
* the `date_range` side statistics of the accumulator call the external
  `dateutil` parser inside a local try/except whose failure is ignored; they
  have no effect on control flow or on any claimed field and are omitted from
  the `ContentAnalysis` model.
* `quality_metrics` form float-valued ratios and are not modelled; the
  wall-clock `processing_timestamp` fields are likewise omitted.
* `str.lower` is modelled on ASCII letters (every sentiment keyword is ASCII);
  Python `repr` of a string is modelled as wrapping in single quotes.
-/

namespace StockAI

/-- A dynamic Python value as delivered by the news provider: `None`, booleans,
integers, strings, lists, and string-keyed dictionaries. -/
inductive PyVal where
  | none
  | bool (b : Bool)
  | int (n : Int)
  | str (s : String)
  | list (xs : List PyVal)
  | dict (kvs : List (String × PyVal))

/-- A raised Python exception, carrying the text that `str(e)` would produce. -/
structure PyErr where
  msg : String

/-- Python truthiness (`bool(v)`). -/
def PyVal.truthy : PyVal → Bool
  | .none => false
  | .bool b => b
  | .int n => n != 0
  | .str s => s != ""
  | .list xs => !xs.isEmpty
  | .dict kvs => !kvs.isEmpty

/-- The Python type name of a value, as it appears in exception messages. -/
def PyVal.typeName : PyVal → String
  | .none => "NoneType"
  | .bool _ => "bool"
  | .int _ => "int"
  | .str _ => "str"
  | .list _ => "list"
  | .dict _ => "dict"

/-- Python hashability: lists and dicts are unhashable, everything else in
`PyVal` is hashable. -/
def PyVal.hashable : PyVal → Bool
  | .list _ => false
  | .dict _ => false
  | _ => true

/-- Python equality restricted to the hashable `PyVal`s (the only values this
pipeline ever inserts into a set or uses as a dict key).  Mirrors Python's
numeric conflation `True == 1`, `False == 0`.  Containers, which never reach a
set or key position here, compare unequal. -/
def pyEqB : PyVal → PyVal → Bool
  | .none, .none => true
  | .bool a, .bool b => a == b
  | .int a, .int b => a == b
  | .str a, .str b => a == b
  | .bool a, .int b => (if a then (1 : Int) else 0) == b
  | .int a, .bool b => a == (if b then (1 : Int) else 0)
  | _, _ => false

/-- Look a key up in a dictionary (association list with unique keys). -/
def dictLookup (kvs : List (String × PyVal)) (k : String) : Option PyVal :=
  (kvs.find? (fun p => p.1 == k)).map (fun p => p.2)

/-- Python `d.get(k, dflt)` on a dictionary. -/
def dictGet (kvs : List (String × PyVal)) (k : String) (dflt : PyVal) : PyVal :=
  (dictLookup kvs k).getD dflt

/-- Python `v.get(k, dflt)` on an arbitrary value: raises `AttributeError`
unless `v` is a dictionary. -/
def pyGetE (v : PyVal) (k : String) (dflt : PyVal) : Except PyErr PyVal :=
  match v with
  | .dict kvs => .ok (dictGet kvs k dflt)
  | other =>
      .error ⟨"\x27" ++ other.typeName ++ "\x27 object has no attribute \x27get\x27"⟩

/-- `repr`, with an explicit fuel argument for structural recursion.  The fuel
bounds the container nesting depth; `pyRepr` instantiates it with 100, far
above the nesting depth of any provider payload (and of every payload appearing
in a theorem below), so the fuel-exhausted case is unreachable. -/
def pyReprAux : Nat → PyVal → String
  | _, .none => "None"
  | _, .bool true => "True"
  | _, .bool false => "False"
  | _, .int n => toString n
  | _, .str s => "\x27" ++ s ++ "\x27"
  | 0, _ => ""
  | fuel + 1, .list xs =>
      "[" ++ String.intercalate ", " (xs.map (pyReprAux fuel)) ++ "]"
  | fuel + 1, .dict kvs =>
      "\x7b" ++
        String.intercalate ", "
          (kvs.map (fun p => "\x27" ++ p.1 ++ "\x27: " ++ pyReprAux fuel p.2)) ++
        "\x7d"

/-- Python `repr(v)` (for payloads nested at most 100 containers deep). -/
def pyRepr (v : PyVal) : String := pyReprAux 100 v

/-- Python `str(v)`: the string itself for strings, `repr` otherwise (exact for
`None`, booleans, integers, lists and dictionaries). -/
def pyStr : PyVal → String
  | .str s => s
  | v => pyRepr v

/-- Python's ASCII whitespace set used by `str.split()` and `str.strip()`. -/
def pyIsSpace (c : Char) : Bool :=
  c == ' ' || c == '\t' || c == '\n' || c == '\r' || c == '\x0b' || c == '\x0c'

/-- Python `s.strip()`. -/
def pyStrip (s : String) : String :=
  String.mk (((s.toList.dropWhile pyIsSpace).reverse.dropWhile pyIsSpace).reverse)

/-- Helper of `pySplitWs`: accumulates the current token (reversed) while
scanning. -/
def wsTokensAux : List Char → List Char → List String
  | [], cur => if cur.isEmpty then [] else [String.mk cur.reverse]
  | c :: cs, cur =>
      if pyIsSpace c then
        (if cur.isEmpty then [] else [String.mk cur.reverse]) ++ wsTokensAux cs []
      else
        wsTokensAux cs (c :: cur)

/-- Python `s.split()`: the maximal runs of non-whitespace characters.  In
particular `pySplitWs "" = []`. -/
def pySplitWs (s : String) : List String := wsTokensAux s.toList []

/-- Helper of `strContains`: substring search over character lists. -/
def listContainsAux (pat : List Char) : List Char → Bool
  | [] => pat.isEmpty
  | c :: cs => pat.isPrefixOf (c :: cs) || listContainsAux pat cs

/-- Python `pat in s` for strings: substring containment. -/
def strContains (s pat : String) : Bool := listContainsAux pat.toList s.toList

/-- Lower-case an ASCII letter, leave everything else unchanged. -/
def asciiLower (c : Char) : Char :=
  if c.toNat ≥ 65 && c.toNat ≤ 90 then Char.ofNat (c.toNat + 32) else c

/-- Python `s.lower()` (ASCII; all sentiment keywords are ASCII). -/
def pyLower (s : String) : String := String.mk (s.toList.map asciiLower)

/-- Python `s[:n]` on a string: the first `n` code points. -/
def pyTake (s : String) (n : Nat) : String := String.mk (s.toList.take n)

/-- Python `title + ' ' + combined_text` (line 854): succeeds only when the
left operand is a string, otherwise raises `TypeError` with Python's message. -/
def pyAddStrE (v : PyVal) (s : String) : Except PyErr String :=
  match v with
  | .str t => .ok (t ++ s)
  | .list _ => .error ⟨"can only concatenate list (not \x22str\x22) to list"⟩
  | other =>
      .error ⟨"unsupported operand type(s) for +: \x27" ++ other.typeName ++
        "\x27 and \x27str\x27"⟩

/-- Zero-pad a natural number to two digits (strftime `%H`/`%M`/`%S`/`%m`/`%d`). -/
def pad2 (n : Nat) : String := if n < 10 then "0" ++ toString n else toString n

/-- Zero-pad a natural number to four digits (strftime `%Y`). -/
def pad4 (n : Nat) : String :=
  if n < 10 then "000" ++ toString n
  else if n < 100 then "00" ++ toString n
  else if n < 1000 then "0" ++ toString n
  else toString n

/-- Civil date (year, month, day) of a day count relative to 1970-01-01
(proleptic Gregorian calendar, standard era-based conversion). -/
def civilFromDays (z0 : Int) : Int × Nat × Nat :=
  let z := z0 + 719468
  let era := Int.ediv z 146097
  let doe := (z - era * 146097).toNat
  let yoe := (doe - doe / 1460 + doe / 36524 - doe / 146096) / 365
  let y := (yoe : Int) + era * 400
  let doy := doe - (365 * yoe + yoe / 4 - yoe / 100)
  let mp := (5 * doy + 2) / 153
  let d := doy - (153 * mp + 2) / 5 + 1
  let m := if mp < 10 then mp + 3 else mp - 9
  (if m ≤ 2 then y + 1 else y, m, d)

/-- `datetime.fromtimestamp(ts).strftime('%Y-%m-%d %H:%M:%S')` for an integer
Unix timestamp (UTC model).  Raises, as Python's `datetime` does, when the
resulting year falls outside 1..9999. -/
def unixToDatetimeStr (ts : Int) : Except PyErr String :=
  let days := Int.ediv ts 86400
  let secs := (Int.emod ts 86400).toNat
  match civilFromDays days with
  | (y, m, d) =>
    if 1 ≤ y ∧ y ≤ 9999 then
      .ok (pad4 y.toNat ++ "-" ++ pad2 m ++ "-" ++ pad2 d ++ " " ++
           pad2 (secs / 3600) ++ ":" ++ pad2 (secs % 3600 / 60) ++ ":" ++
           pad2 (secs % 60))
    else .error ⟨"timestamp year out of range"⟩

/-- `_format_timestamp` (src/stock_data_analyzer.py lines 276-291):
`try: if timestamp: return datetime.fromtimestamp(timestamp).strftime(...);
return 'N/A'; except: return 'N/A'`.  A falsy timestamp (0, None, False, empty
containers, "" never reaches here as strings are routed elsewhere) yields
"N/A"; a non-numeric truthy value makes `fromtimestamp` raise `TypeError`,
caught by the bare except; an out-of-range integer raises and is caught too. -/
def formatTimestamp (timestamp : PyVal) : String :=
  if timestamp.truthy then
    match timestamp with
    | .int n =>
        match unixToDatetimeStr n with
        | .ok s => s
        | .error _ => "N/A"
    | .bool _ =>
        match unixToDatetimeStr 1 with
        | .ok s => s
        | .error _ => "N/A"
    | _ => "N/A"
  else "N/A"

/-- Scheme characters accepted by `urllib.parse` (letters, digits, `+-.`). -/
def validSchemeChar (c : Char) : Bool := c.isAlphanum || c == '+' || c == '-' || c == '.'

/-- Drop a leading `scheme:` from a URL if present (first segment before `:`
non-empty, starting with a letter, all scheme characters). -/
def dropScheme (cs : List Char) : List Char :=
  let pre := cs.takeWhile (fun c => c != ':')
  let post := cs.drop pre.length
  match post with
  | ':' :: rest =>
      if !pre.isEmpty && (pre.headD ' ').isAlpha && pre.all validSchemeChar then rest
      else cs
  | _ => cs

/-- `urllib.parse.urlparse(url).netloc`: the authority component, present
exactly when the scheme-stripped URL starts with `//`; it extends to the next
`/`, `?` or `#`. -/
def urlparseNetloc (url : String) : String :=
  match dropScheme url.toList with
  | '/' :: '/' :: rest =>
      String.mk (rest.takeWhile (fun c => c != '/' && c != '?' && c != '#'))
  | _ => ""

/-! ## Field extractors (src/stock_data_analyzer.py lines 752-857) -/

/-- The ordered body-candidate fields (line 757). -/
def textFields : List String := ["summary", "description", "intro", "excerpt", "body", "text"]

/-- The accumulation loop of lines 761-766: a candidate is appended (with a
leading space) when it is truthy, a string, and not already a substring of the
accumulator; its field name is recorded in `content_sources`. -/
def collectTextGo (c : List (String × PyVal)) :
    List String → String → List String → String × List String
  | [], acc, srcs => (acc, srcs)
  | f :: fs, acc, srcs =>
      match dictGet c f (.str "") with
      | .str s =>
          if s != "" && !strContains acc s then
            collectTextGo c fs (acc ++ " " ++ s) (srcs ++ [f])
          else
            collectTextGo c fs acc srcs
      | _ => collectTextGo c fs acc srcs

/-- Combined text and content sources before the final `strip` (lines 757-766). -/
def collectText (c : List (String × PyVal)) : String × List String :=
  collectTextGo c textFields "" []

/-- `title = content.get('title', f'Article {i+1}')` (line 771; identical in
src/comprehensive_news_analyzer.py line 51).  `i` is the 0-based loop index. -/
def titleOf (c : List (String × PyVal)) (i : Nat) : PyVal :=
  dictGet c "title" (.str ("Article " ++ toString (i + 1)))

/-- The publisher resolution of lines 774-780 applied to the raw `provider`
value: `displayName` (default 'Unknown Source') when the provider is a mapping,
else `str(provider)` when the provider is truthy, else 'Unknown Source'. -/
def providerPublisher : PyVal → PyVal
  | .dict p => dictGet p "displayName" (.str "Unknown Source")
  | v => if v.truthy then .str (pyStr v) else .str "Unknown Source"

/-- `publisher_domain` of lines 774-780: the provider mapping's `url` (default
''), or '' for a non-mapping provider. -/
def providerDomain : PyVal → PyVal
  | .dict p => dictGet p "url" (.str "")
  | _ => .str ""

/-- The publisher resolution of `get_news` (src/stock_data_analyzer.py lines
245-246): `provider.get('displayName', 'Unknown') if isinstance(provider, dict)
else str(provider)`. -/
def getNewsPublisher : PyVal → PyVal
  | .dict p => dictGet p "displayName" (.str "Unknown")
  | v => .str (pyStr v)

/-- Link extraction (lines 783-785): `canonicalUrl` else `clickThroughUrl`
(default ''), and if the resolved value is a mapping, its `url` sub-field
(default `str(link)`). -/
def linkOf (c : List (String × PyVal)) : PyVal :=
  let l := dictGet c "canonicalUrl" (dictGet c "clickThroughUrl" (.str ""))
  match l with
  | .dict m => dictGet m "url" (.str (pyStr (PyVal.dict m)))
  | v => v

/-- `link_domain` (lines 788-796): for a truthy link, `urlparse(link).netloc`
inside a local try/except -- a non-string link makes `urlparse` raise and the
exception is swallowed, leaving the '' default.  A falsy link is skipped. -/
def linkDomainOf (link : PyVal) : String :=
  if link.truthy then
    match link with
    | .str s => urlparseNetloc s
    | _ => ""
  else ""

/-- The values added to the `link_domains` set by lines 788-796: exactly the
computed netloc when the link is a truthy string (the `add` is inside the `try`
after `urlparse`, so nothing is added when `urlparse` raises). -/
def linkDomainAdds (link : PyVal) : List String :=
  if link.truthy then
    match link with
    | .str s => [urlparseNetloc s]
    | _ => []
  else []

/-- Date processing for the record (lines 799-813): a string `pubDate` passes
through; anything else (default 0) goes through `_format_timestamp`. -/
def publishedDateOf (c : List (String × PyVal)) : String :=
  match dictGet c "pubDate" (.int 0) with
  | .str s => s
  | v => formatTimestamp v

/-- `thumbnail.get('url', '') if isinstance(thumbnail, dict) else ''` (line 877). -/
def thumbnailUrlOf : PyVal → PyVal
  | .dict t => dictGet t "url" (.str "")
  | _ => .str ""

/-- Sentiment keyword lists (lines 847-851). -/
def positiveKeywords : List String :=
  ["rise", "gain", "profit", "growth", "buy", "bullish", "upgrade", "strong"]

/-- Negative sentiment keywords (line 849). -/
def negativeKeywords : List String :=
  ["fall", "loss", "decline", "drop", "sell", "bearish", "downgrade", "weak"]

/-- Neutral sentiment keywords (line 850). -/
def neutralKeywords : List String :=
  ["stable", "holds", "maintains", "expects", "analyst", "report"]

/-- Per-article sentiment tally. -/
structure SentimentScore where
  positive : Nat
  negative : Nat
  neutral : Nat
deriving DecidableEq

/-- `sum(1 for keyword in keywords if keyword in text_for_sentiment)` (line
857): the number of keywords of the list occurring as a substring. -/
def countKeywords (ks : List String) (text : String) : Nat :=
  ks.countP (fun k => strContains text k)

/-- The sentiment tally of lines 853-857 over the lowercased text. -/
def sentimentOf (text : String) : SentimentScore :=
  ⟨countKeywords positiveKeywords text,
   countKeywords negativeKeywords text,
   countKeywords neutralKeywords text⟩

/-! ## Article records and the per-item accumulator (lines 741-892) -/

/-- The comprehensive article record of lines 860-881 (`article_data`).  The
wall-clock `processing_timestamp` is omitted.  Fields that Python leaves
dynamically typed (whatever the payload holds) are `PyVal`-typed. -/
structure ArticleData where
  id : Nat
  title : PyVal
  full_content : String
  content_sources : List String
  char_count : Nat
  word_count : Nat
  substantial_content : Bool
  publisher : PyVal
  publisher_domain : PyVal
  published_date : String
  link : PyVal
  link_domain : String
  content_type : PyVal
  category : PyVal
  tags : PyVal
  has_thumbnail : Bool
  thumbnail_url : PyVal
  sentiment_indicators : SentimentScore
  raw_fields_available : List String

/-- The error record appended by the per-item handler (lines 885-892):
`{'id': i+1, 'error': f'Processing error: {str(e)}',
'raw_preview': str(article)[:300] + '...'}` (`processing_timestamp` omitted). -/
structure ErrorData where
  id : Nat
  error : String
  raw_preview : String

/-- One entry of `processed_articles`: a full article record or an error
record. -/
inductive Record where
  | article (d : ArticleData)
  | error (e : ErrorData)

/-- Whether a record is an error record. -/
def Record.isErr : Record → Bool
  | .article _ => false
  | .error _ => true

/-- The `id` (1-based sequence number) carried by either kind of record. -/
def Record.seq : Record → Nat
  | .article d => d.id
  | .error e => e.id

/-- The title of a non-error record. -/
def Record.titleVal : Record → Option PyVal
  | .article d => some d.title
  | .error _ => Option.none

/-- The sentiment tally of a non-error record. -/
def Record.sentimentVal : Record → Option SentimentScore
  | .article d => some d.sentiment_indicators
  | .error _ => Option.none

/-- The `content_analysis` accumulator initialised at lines 742-750.  Sets are
modelled as duplicate-free insertion lists, the content-type histogram as an
association list.  The `date_range` entry (fed by the external `dateutil`
parser inside a swallowed try/except, lines 802-822) has no effect on any other
field and is omitted. -/
structure ContentAnalysis where
  total_characters : Nat
  total_words : Nat
  articles_with_substantial_content : Nat
  unique_publishers : List PyVal
  content_types : List (PyVal × Nat)
  link_domains : List String

/-- The accumulator before any item is processed. -/
def initialCA : ContentAnalysis := ⟨0, 0, 0, [], [], []⟩

/-- Python `set.add` on hashable values. -/
def pySetAdd (s : List PyVal) (v : PyVal) : List PyVal :=
  if s.any (fun w => pyEqB w v) then s else s ++ [v]

/-- `set.add` for the string-only `link_domains` set. -/
def strSetAdd (s : List String) (v : String) : List String :=
  if s.contains v then s else s ++ [v]

/-- `hist[k] = hist.get(k, 0) + 1` on the content-type histogram. -/
def histAdd (h : List (PyVal × Nat)) (k : PyVal) : List (PyVal × Nat) :=
  if h.any (fun p => pyEqB p.1 k) then
    h.map (fun p => if pyEqB p.1 k then (p.1, p.2 + 1) else p)
  else h ++ [(k, 1)]

/-- The in-place mutations one item performs on `content_analysis`, recorded as
data.  An item that raises keeps the mutations it performed before the raise,
exactly as with Python's in-place updates. -/
structure ItemEffect where
  linkDomainAdds : List String
  substantialInc : Nat
  charAdd : Nat
  wordAdd : Nat
  publisherAdds : List PyVal
  contentTypeAdds : List PyVal

/-- The empty effect (item raised before mutating anything). -/
def ItemEffect.empty : ItemEffect := ⟨[], 0, 0, 0, [], []⟩

/-- Apply an item's recorded mutations to the accumulator (each field update
corresponds to one statement of lines 794, 831, 833-835, 839). -/
def applyEffect (e : ItemEffect) (ca : ContentAnalysis) : ContentAnalysis :=
  { total_characters := ca.total_characters + e.charAdd,
    total_words := ca.total_words + e.wordAdd,
    articles_with_substantial_content :=
      ca.articles_with_substantial_content + e.substantialInc,
    unique_publishers := e.publisherAdds.foldl pySetAdd ca.unique_publishers,
    content_types := e.contentTypeAdds.foldl histAdd ca.content_types,
    link_domains := e.linkDomainAdds.foldl strSetAdd ca.link_domains }

/-- The mutations recorded by lines 794 and 829-834 (link-domain add,
substantial counter, character and word totals), i.e. everything mutated before
the `unique_publishers.add` of line 835. -/
def baseEffect (c : List (String × PyVal)) : ItemEffect :=
  let combined_text := pyStrip (collectText c).1
  { linkDomainAdds := linkDomainAdds (linkOf c),
    substantialInc := if decide (combined_text.length > 100) then 1 else 0,
    charAdd := combined_text.length,
    wordAdd := if combined_text != "" then (pySplitWs combined_text).length else 0,
    publisherAdds := [],
    contentTypeAdds := [] }

/-- `str(e)` of the `TypeError` raised by `title + ' '` (line 854) when the
title is not a string. -/
def concatErr (v : PyVal) : PyErr :=
  match v with
  | .list _ => ⟨"can only concatenate list (not \x22str\x22) to list"⟩
  | other =>
      ⟨"unsupported operand type(s) for +: \x27" ++ other.typeName ++
        "\x27 and \x27str\x27"⟩

/-- `str(e)` of the `TypeError` raised by `set.add` / dict indexing on an
unhashable value (lines 835 and 839). -/
def unhashableErr (v : PyVal) : PyErr :=
  ⟨"unhashable type: \x27" ++ v.typeName ++ "\x27"⟩

/-- The full article record built at lines 860-881 for the item with 0-based
index `i`, content dictionary `c` and (string) title `t`. -/
def mkOkArticle (c : List (String × PyVal)) (i : Nat) (t : String) : ArticleData :=
  let combined_text := pyStrip (collectText c).1
  { id := i + 1,
    title := .str t,
    full_content := combined_text,
    content_sources := (collectText c).2,
    char_count := combined_text.length,
    word_count := if combined_text != "" then (pySplitWs combined_text).length else 0,
    substantial_content := decide (combined_text.length > 100),
    publisher := providerPublisher (dictGet c "provider" (.dict [])),
    publisher_domain := providerDomain (dictGet c "provider" (.dict [])),
    published_date := publishedDateOf c,
    link := linkOf c,
    link_domain := linkDomainOf (linkOf c),
    content_type := dictGet c "contentType" (.str "STORY"),
    category := dictGet c "category" (.str ""),
    tags := dictGet c "tags" (.list []),
    has_thumbnail := (dictGet c "thumbnail" (.dict [])).truthy,
    thumbnail_url := thumbnailUrlOf (dictGet c "thumbnail" (.dict [])),
    sentiment_indicators :=
      sentimentOf (pyLower (t ++ " " ++ combined_text)),
    raw_fields_available := c.map (fun p => p.1) }

/-- The body of the per-item `try` (lines 753-883) for an item whose `content`
envelope is the dictionary `c`, in source order.  The three statements that can
raise after the extraction of `content` are rendered explicitly:
`unique_publishers.add(publisher)` (line 835, unhashable publisher),
`content_types` indexing (line 839, unhashable content type), and
`title + ' ' + combined_text` (line 854, non-string title).  Everything else is
total.  The returned `ItemEffect` is the accumulator mutation performed up to
the point reached. -/
def processContent (c : List (String × PyVal)) (i : Nat) :
    Except PyErr ArticleData × ItemEffect :=
  let publisher := providerPublisher (dictGet c "provider" (.dict []))
  if publisher.hashable then
    let content_type := dictGet c "contentType" (.str "STORY")
    if content_type.hashable then
      match titleOf c i with
      | .str t =>
          (.ok (mkOkArticle c i t),
           { baseEffect c with
               publisherAdds := [publisher], contentTypeAdds := [content_type] })
      | other =>
          (.error (concatErr other),
           { baseEffect c with
               publisherAdds := [publisher], contentTypeAdds := [content_type] })
    else
      (.error (unhashableErr content_type),
       { baseEffect c with publisherAdds := [publisher] })
  else
    (.error (unhashableErr publisher), baseEffect c)

/-- One iteration of the loop at lines 752-892, before the `except` handler:
`content = article.get('content', {})` raises when the item is not a mapping;
a non-mapping `content` value makes the first `content.get` of the text-field
loop (line 762) raise; otherwise the body `processContent` runs. -/
def processArticleCore (article : PyVal) (i : Nat) :
    Except PyErr ArticleData × ItemEffect :=
  match pyGetE article "content" (.dict []) with
  | .error e => (.error e, ItemEffect.empty)
  | .ok content =>
      match content with
      | .dict c => processContent c i
      | other =>
          (.error ⟨"\x27" ++ other.typeName ++
            "\x27 object has no attribute \x27get\x27"⟩, ItemEffect.empty)

/-- One iteration of the loop at lines 752-892 including the `except Exception`
handler of lines 885-892: an exception becomes an inline error record and is
not propagated. -/
def processArticle (article : PyVal) (i : Nat) : Record × ItemEffect :=
  match processArticleCore article i with
  | (.ok d, eff) => (.article d, eff)
  | (.error e, eff) =>
      (.error { id := i + 1,
                error := "Processing error: " ++ e.msg,
                raw_preview := pyTake (pyStr article) 300 ++ "..." }, eff)

/-- The loop of lines 752-892 over the retained items, threading the
`content_analysis` accumulator (0-based index `i`). -/
def runBatch : List PyVal → Nat → ContentAnalysis → List Record × ContentAnalysis
  | [], _, ca => ([], ca)
  | a :: rest, i, ca =>
      let pr := processArticle a i
      let rest' := runBatch rest (i + 1) (applyEffect pr.2 ca)
      (pr.1 :: rest'.1, rest'.2)

/-- `news_to_process = all_news[:limit] if len(all_news) > limit else all_news`
(line 739), for a natural (article-count) limit. -/
def newsToProcess (l : List PyVal) (limit : Nat) : List PyVal :=
  if l.length > limit then l.take limit else l

/-- The result of `get_ultra_comprehensive_news` (constant fields such as
`symbol` and the wall-clock `retrieval_timestamp` omitted; the float-valued
`quality_metrics` block is not modelled).  `noNews` is the early return of
lines 727-734 (`status='no_news'`, `total_articles`, `articles`, `error`): note
it carries no `content_analysis` entry.  `success` is the return of lines
912-928 (`status='success'`). -/
inductive UltraResult where
  | noNews (total_articles : Nat) (articles : List Record) (error : String)
  | success (total_available_articles : Nat) (total_processed_articles : Nat)
      (articles : List Record) (content_analysis : ContentAnalysis)

/-- The `articles` entry of the result. -/
def UltraResult.articles : UltraResult → List Record
  | .noNews _ arts _ => arts
  | .success _ _ arts _ => arts

/-- The `content_analysis` entry of the result; `Option.none` when the returned
payload carries no such entry (the no-news early return). -/
def UltraResult.aggregate : UltraResult → Option ContentAnalysis
  | .noNews _ _ _ => Option.none
  | .success _ _ _ ca => some ca

/-- `content_analysis['total_characters']` of the result, reading 0 when the
result carries no aggregate. -/
def UltraResult.aggTotalChars (r : UltraResult) : Nat :=
  (r.aggregate.map ContentAnalysis.total_characters).getD 0

/-- `get_ultra_comprehensive_news` (lines 713-936) as a function of the raw
provider payload `self.stock.news` (`Option.none` models an absent list) and
the requested limit.  `if not all_news:` routes both an absent and an empty
list to the no-news early return; otherwise the retained prefix is processed
with per-item isolation and the accumulator is threaded through. -/
def getUltraComprehensiveNews (allNews : Option (List PyVal)) (limit : Nat) :
    UltraResult :=
  match allNews with
  | Option.none => .noNews 0 [] "No news available from Yahoo Finance"
  | Option.some l =>
      if l.isEmpty then .noNews 0 [] "No news available from Yahoo Finance"
      else
        let tp := newsToProcess l limit
        let res := runBatch tp 0 initialCA
        .success l.length res.1.length res.1 res.2

/-- `sum(a.char_count for a in articles if not a.error)`: the total of
`char_count` over the non-error records. -/
def sumNonErrorChars : List Record → Nat
  | [] => 0
  | .article d :: r => d.char_count + sumNonErrorChars r
  | .error _ :: r => sumNonErrorChars r

/-- The characters added to `total_characters` (line 833) by items that
afterwards raised and ended as error records: such an item's `char_count`
inflates the aggregate without any non-error record carrying it. -/
def lateFailCharSum : List PyVal → Nat → Nat
  | [], _ => 0
  | a :: r, i =>
      (match processArticle a i with
       | (.article _, _) => 0
       | (.error _, eff) => eff.charAdd) + lateFailCharSum r (i + 1)

/-! ## Shared lemmas -/

/-- A successful item is fully characterized: its payload has a (successfully
`get`-table) dictionary `content` envelope `c`, its title resolved to a string
`t`, the record is `mkOkArticle c i t`, and the accumulator mutation is the
base effect plus the publisher and content-type inserts. -/
theorem processArticle_ok_shape (a : PyVal) (i : Nat) (d : ArticleData)
    (eff : ItemEffect) (h : processArticle a i = (Record.article d, eff)) :
    ∃ c t, pyGetE a "content" (PyVal.dict []) = Except.ok (PyVal.dict c) ∧
      titleOf c i = PyVal.str t ∧ d = mkOkArticle c i t ∧
      eff = { baseEffect c with
                publisherAdds := [providerPublisher (dictGet c "provider" (.dict []))],
                contentTypeAdds := [dictGet c "contentType" (.str "STORY")] } := by
  unfold processArticle at h
  split at h
  next d' eff' hcore =>
    rw [Prod.mk.injEq] at h
    obtain ⟨hd, heff⟩ := h
    injection hd with hd
    subst hd; subst heff
    unfold processArticleCore at hcore
    split at hcore
    next e hget => simp at hcore
    next content hget =>
      split at hcore
      next c =>
        unfold processContent at hcore
        split at hcore
        next t htitle =>
          simp only [] at hcore
          split at hcore
          next hhash1 =>
            split at hcore
            next hhash2 =>
              rw [Prod.mk.injEq] at hcore
              obtain ⟨hok, heff⟩ := hcore
              injection hok with hok
              exact ⟨c, t, hget, htitle, hok.symm, heff.symm⟩
            next => simp at hcore
          next => simp at hcore
        next other hne =>
          simp only [] at hcore
          split at hcore
          next =>
            split at hcore <;> simp at hcore
          next => simp at hcore
      next other hne => simp at hcore
  next e eff' hcore => simp at h

/-- An item that raises inside the per-item `try` yields exactly the inline
error record of lines 885-892. -/
theorem processArticle_error_shape (a : PyVal) (i : Nat) (err : PyErr)
    (eff : ItemEffect) (h : processArticleCore a i = (Except.error err, eff)) :
    processArticle a i =
      (Record.error { id := i + 1, error := "Processing error: " ++ err.msg,
                      raw_preview := pyTake (pyStr a) 300 ++ "..." }, eff) := by
  unfold processArticle
  rw [h]

/-- The loop emits one record per retained item. -/
theorem runBatch_length (items : List PyVal) (i : Nat) (ca : ContentAnalysis) :
    (runBatch items i ca).1.length = items.length := by
  induction items generalizing i ca with
  | nil => rfl
  | cons a rest ih => simp [runBatch, ih]

/-- The `j`-th record of the loop output is the record of the `j`-th retained
item, independently of the accumulator state and of every other item. -/
theorem runBatch_get (items : List PyVal) (i : Nat) (ca : ContentAnalysis)
    (j : Nat) (item : PyVal) (hj : items[j]? = some item) :
    (runBatch items i ca).1[j]? = some (processArticle item (i + j)).1 := by
  induction items generalizing i ca j with
  | nil => simp at hj
  | cons a rest ih =>
    cases j with
    | zero =>
      simp at hj
      subst hj
      simp [runBatch]
    | succ j' =>
      simp at hj
      have := ih (i + 1) (applyEffect (processArticle a i).2 ca) j' hj
      simpa [runBatch, Nat.add_assoc, Nat.add_comm 1 j'] using this

/-- In the successful case the recorded `charAdd` is the record's
`char_count`. -/
theorem processArticle_ok_charAdd (a : PyVal) (i : Nat) (d : ArticleData)
    (eff : ItemEffect) (h : processArticle a i = (Record.article d, eff)) :
    eff.charAdd = d.char_count := by
  obtain ⟨c, t, _, _, hd, heff⟩ := processArticle_ok_shape a i d eff h
  subst hd; subst heff
  rfl

/-- `total_characters` after the loop: the initial total, plus the `char_count`
of every non-error record, plus the characters accumulated at line 833 by
items that raised later (line 835, 839 or 854) and ended as error records. -/
theorem runBatch_totalChars (items : List PyVal) (i : Nat) (ca : ContentAnalysis) :
    (runBatch items i ca).2.total_characters =
      ca.total_characters + sumNonErrorChars (runBatch items i ca).1 +
        lateFailCharSum items i := by
  induction items generalizing i ca with
  | nil => simp [runBatch, lateFailCharSum, sumNonErrorChars]
  | cons a rest ih =>
    have hstep := ih (i + 1) (applyEffect (processArticle a i).2 ca)
    cases hpr : processArticle a i with
    | mk r eff =>
      cases r with
      | article d =>
        have hchar := processArticle_ok_charAdd a i d eff hpr
        simp only [runBatch, hpr] at hstep ⊢
        rw [hstep]
        simp [lateFailCharSum, sumNonErrorChars, applyEffect, hpr, hchar]
        ring
      | error e =>
        simp only [runBatch, hpr] at hstep ⊢
        rw [hstep]
        simp [lateFailCharSum, sumNonErrorChars, applyEffect, hpr]
        ring

/-! ## Claim C1: batch isolation -/

/-- C1: Batch isolation.  For every raw news list and limit: (a) any retained
item whose processing raises (its `try` body returns an error) produces, at its
position, exactly the inline error record with the 1-based sequence number
`i+1`, the message `'Processing error: ' + str(e)` and the 300-character
preview of the stringified payload — the exception is never propagated (the
batch function is total and still emits a record); (b) every retained item's
record is a function of that item and its index alone, so the items after a
failing one are processed exactly as they would be in any other batch
("subsequent items process normally").  Items beyond the retained
`min(len, limit)` prefix are dropped by the limit (claim C3), so the
quantification ranges over the retained items. -/
theorem c1_batch_isolation (raw : List PyVal) (limit : Nat) :
    (∀ (i : Nat) (item : PyVal) (err : PyErr) (eff : ItemEffect),
        (newsToProcess raw limit)[i]? = some item →
        processArticleCore item i = (Except.error err, eff) →
        (getUltraComprehensiveNews (some raw) limit).articles[i]? =
          some (Record.error
            { id := i + 1, error := "Processing error: " ++ err.msg,
              raw_preview := pyTake (pyStr item) 300 ++ "..." }))
  ∧ (∀ (j : Nat) (item : PyVal),
        (newsToProcess raw limit)[j]? = some item →
        (getUltraComprehensiveNews (some raw) limit).articles[j]? =
          some (processArticle item j).1) := by
  have hmain : ∀ (j : Nat) (item : PyVal),
      (newsToProcess raw limit)[j]? = some item →
      (getUltraComprehensiveNews (some raw) limit).articles[j]? =
        some (processArticle item j).1 := by
    intro j item hj
    cases raw with
    | nil =>
      simp [newsToProcess] at hj
    | cons a rest =>
      have hget := runBatch_get (newsToProcess (a :: rest) limit) 0 initialCA j item hj
      simpa [getUltraComprehensiveNews, UltraResult.articles] using hget
  refine ⟨?_, hmain⟩
  intro i item err eff hi herr
  rw [hmain i item hi, processArticle_error_shape item i err eff herr]

/-- A raw item that is not a mapping: `article.get` raises `AttributeError`. -/
def c1BadItem : PyVal := .str "oops"

/-- A well-formed raw item following the bad one in the C1 witness batch. -/
def c1GoodItem : PyVal :=
  .dict [("content", .dict [("title", .str "Ok"), ("summary", .str "fine body")])]

/-- C1 witness: in a batch whose first item raises, the first record is the
inline error record at sequence number 1 and the second item still yields its
own record. -/
theorem c1_batch_isolation_witness :
    (getUltraComprehensiveNews (some [c1BadItem, c1GoodItem]) 10).articles[0]? =
      some (Record.error
        { id := 1,
          error :=
            "Processing error: \x27str\x27 object has no attribute \x27get\x27",
          raw_preview := pyTake (pyStr c1BadItem) 300 ++ "..." }) ∧
    (getUltraComprehensiveNews (some [c1BadItem, c1GoodItem]) 10).articles[1]? =
      some (processArticle c1GoodItem 1).1 :=
  ⟨(c1_batch_isolation [c1BadItem, c1GoodItem] 10).1 0 c1BadItem
      ⟨"\x27str\x27 object has no attribute \x27get\x27"⟩ ItemEffect.empty rfl rfl,
   (c1_batch_isolation [c1BadItem, c1GoodItem] 10).2 1 c1GoodItem rfl⟩

/-! ## Claim C2: aggregate total-characters invariant (corrected) -/

/-- A one-item list whose item carries a 5-character summary and a non-string
title: the summary's length is added to `total_characters` at line 833, then
`title + ' '` raises at line 854, so the item ends as an error record. -/
def c2BadItem : PyVal :=
  .dict [("content", .dict [("title", .int 5), ("summary", .str "hello")])]

/-- C2 counterexample: on `[c2BadItem]` the aggregate reports
`total_characters = 5` while the sum of `char_count` over non-error records is
0 (the only record is an error record), refuting the claimed equality — an
item that fails after the line-833 accumulation does contribute to the
total. -/
theorem c2_counterexample :
    (getUltraComprehensiveNews (some [c2BadItem]) 10).aggTotalChars = 5 ∧
    sumNonErrorChars (getUltraComprehensiveNews (some [c2BadItem]) 10).articles = 0 :=
  ⟨rfl, rfl⟩

/-- C2 (amended): the aggregate `total_characters` equals the sum of
`char_count` over the non-error records plus the characters accumulated by
items that raised after the line-833 accumulation (at line 835, 839 or 854)
and ended as error records; in particular the claimed equality holds exactly
when no retained item fails after that point. -/
theorem c2_total_characters (raw : List PyVal) (limit : Nat) :
    (getUltraComprehensiveNews (some raw) limit).aggTotalChars =
      sumNonErrorChars (getUltraComprehensiveNews (some raw) limit).articles +
        lateFailCharSum (newsToProcess raw limit) 0
  ∧ (lateFailCharSum (newsToProcess raw limit) 0 = 0 →
      (getUltraComprehensiveNews (some raw) limit).aggTotalChars =
        sumNonErrorChars (getUltraComprehensiveNews (some raw) limit).articles) := by
  have hmain : (getUltraComprehensiveNews (some raw) limit).aggTotalChars =
      sumNonErrorChars (getUltraComprehensiveNews (some raw) limit).articles +
        lateFailCharSum (newsToProcess raw limit) 0 := by
    cases raw with
    | nil =>
      simp [getUltraComprehensiveNews, UltraResult.aggTotalChars,
        UltraResult.aggregate, UltraResult.articles, newsToProcess,
        sumNonErrorChars, lateFailCharSum]
    | cons a rest =>
      have h := runBatch_totalChars (newsToProcess (a :: rest) limit) 0 initialCA
      simpa [getUltraComprehensiveNews, UltraResult.aggTotalChars,
        UltraResult.aggregate, UltraResult.articles, initialCA] using h
  exact ⟨hmain, fun hz => by rw [hmain, hz, Nat.add_zero]⟩

/-- A hand-built five-item list with known body lengths 3, 5, 120, 0 and 7 and
string titles (no item fails), for exercising the aggregate equality. -/
def fiveItems : List PyVal :=
  [.dict [("content", .dict [("title", .str "A"), ("summary", .str "abc")])],
   .dict [("content", .dict [("title", .str "B"), ("summary", .str "hello")])],
   .dict [("content", .dict [("title", .str "C"),
     ("summary", .str "This body is deliberately long enough to exceed the one-hundred-character substantial-content threshold!")])],
   .dict [("content", .dict [("title", .str "D")])],
   .dict [("content", .dict [("title", .str "E"), ("summary", .str "seven77")])]]

/-- C2 witness: on the five-item list no item fails late, and the amended
theorem yields the aggregate equality. -/
theorem c2_total_characters_witness :
    lateFailCharSum (newsToProcess fiveItems 10) 0 = 0 ∧
    (getUltraComprehensiveNews (some fiveItems) 10).aggTotalChars =
      sumNonErrorChars (getUltraComprehensiveNews (some fiveItems) 10).articles :=
  ⟨rfl, (c2_total_characters fiveItems 10).2 rfl⟩

/-! ## Claim C3: batch length law -/

/-- C3: for every raw list of length `L` and limit `M` the batch result holds
exactly `min L M` records (error records included): the retained prefix is
`raw.take limit` (truncation, never padding), and each retained item yields
exactly one record at its own input position. -/
theorem c3_batch_length_law (raw : List PyVal) (limit : Nat) :
    (getUltraComprehensiveNews (some raw) limit).articles.length =
      min raw.length limit
  ∧ newsToProcess raw limit = raw.take limit
  ∧ (∀ (j : Nat) (item : PyVal),
        (newsToProcess raw limit)[j]? = some item →
        (getUltraComprehensiveNews (some raw) limit).articles[j]? =
          some (processArticle item j).1) := by
  have htake : newsToProcess raw limit = raw.take limit := by
    unfold newsToProcess
    split
    next h => rfl
    next h => exact (List.take_of_length_le (by omega)).symm
  refine ⟨?_, htake, ?_⟩
  · cases raw with
    | nil => simp [getUltraComprehensiveNews, UltraResult.articles]
    | cons a rest =>
      simp only [getUltraComprehensiveNews, List.isEmpty_cons, Bool.false_eq_true,
        if_false, UltraResult.articles]
      rw [runBatch_length, htake, List.length_take, Nat.min_comm]
  · intro j item hj
    cases raw with
    | nil => simp [newsToProcess] at hj
    | cons a rest =>
      have hget := runBatch_get (newsToProcess (a :: rest) limit) 0 initialCA j item hj
      simpa [getUltraComprehensiveNews, UltraResult.articles] using hget

/-- A well-formed raw item for the C3 witness batch. -/
def c3Item : PyVal :=
  .dict [("content", .dict [("title", .str "L"), ("summary", .str "len test")])]

/-- C3 witness: three raw items with limit 2 yield exactly 2 records, and the
first retained item yields the first record. -/
theorem c3_batch_length_law_witness :
    (getUltraComprehensiveNews (some [c3Item, c3Item, c3Item]) 2).articles.length = 2 ∧
    (getUltraComprehensiveNews (some [c3Item, c3Item, c3Item]) 2).articles[0]? =
      some (processArticle c3Item 0).1 :=
  ⟨(c3_batch_length_law [c3Item, c3Item, c3Item] 2).1.trans rfl,
   (c3_batch_length_law [c3Item, c3Item, c3Item] 2).2.2 0 c3Item rfl⟩

/-! ## Claim C4: derived metrics -/

/-- C4: for every non-error article record, `char_count` is the length of the
assembled body, `word_count` is the number of whitespace-delimited tokens of
the body, and `substantial` holds iff `char_count > 100`. -/
theorem c4_derived_metrics (a : PyVal) (i : Nat) (d : ArticleData)
    (eff : ItemEffect) (h : processArticle a i = (Record.article d, eff)) :
    d.char_count = d.full_content.length ∧
    d.word_count = (pySplitWs d.full_content).length ∧
    (d.substantial_content = true ↔ d.char_count > 100) := by
  obtain ⟨c, t, _, _, hd, _⟩ := processArticle_ok_shape a i d eff h
  subst hd
  refine ⟨rfl, ?_, ?_⟩
  · simp only [mkOkArticle]
    by_cases hc : pyStrip (collectText c).1 = ""
    · simp [hc, pySplitWs, wsTokensAux]
    · simp [hc]
  · simp [mkOkArticle]

/-- The content dictionary of the C4 witness item. -/
def c4Content : List (String × PyVal) :=
  [("title", PyVal.str "T"), ("summary", PyVal.str "short body")]

/-- The C4 witness item. -/
def c4Item : PyVal := .dict [("content", .dict c4Content)]

/-- C4 witness: the derived-metric laws instantiated on a concrete
successfully-processed item. -/
theorem c4_derived_metrics_witness :
    (mkOkArticle c4Content 0 "T").char_count =
      (mkOkArticle c4Content 0 "T").full_content.length ∧
    (mkOkArticle c4Content 0 "T").word_count =
      (pySplitWs (mkOkArticle c4Content 0 "T").full_content).length ∧
    ((mkOkArticle c4Content 0 "T").substantial_content = true ↔
      (mkOkArticle c4Content 0 "T").char_count > 100) :=
  c4_derived_metrics c4Item 0 (mkOkArticle c4Content 0 "T")
    { baseEffect c4Content with
        publisherAdds := [providerPublisher (dictGet c4Content "provider" (.dict []))],
        contentTypeAdds := [dictGet c4Content "contentType" (.str "STORY")] }
    (by rfl)

/-! ## Claim C5: sentiment tally -/

/-- First scenario item of the spec (section 8.8). -/
def scenarioItem1 : PyVal :=
  .dict [("content", .dict [("title", .str "Up"), ("summary", .str "stock rises now")])]

/-- Second scenario item of the spec (section 8.8). -/
def scenarioItem2 : PyVal :=
  .dict [("content", .dict [("title", .str "Down"), ("summary", .str "shares fall sharply")])]

/-- C5: every non-error record's sentiment tally is computed over the
lower-cased `title + ' ' + body` text, each keyword of the three fixed lists
contributing one hit when it occurs as a substring of that text (so "rise"
matches inside "rises"); and on the section-8.8 scenario with limit 10 the two
records carry tallies positive=1 (item 1) and negative=1 (item 2). -/
theorem c5_sentiment_tally :
    (∀ (a : PyVal) (i : Nat) (d : ArticleData) (eff : ItemEffect),
        processArticle a i = (Record.article d, eff) →
        ∃ t, d.title = PyVal.str t ∧
          d.sentiment_indicators =
            sentimentOf (pyLower (t ++ " " ++ d.full_content)))
  ∧ (getUltraComprehensiveNews (some [scenarioItem1, scenarioItem2]) 10).articles.map
      Record.sentimentVal = [some ⟨1, 0, 0⟩, some ⟨0, 1, 0⟩] := by
  constructor
  · intro a i d eff h
    obtain ⟨c, t, _, _, hd, _⟩ := processArticle_ok_shape a i d eff h
    subst hd
    exact ⟨t, rfl, rfl⟩
  · decide

/-- C5 witness: the general tally law instantiated on the first scenario
item. -/
theorem c5_sentiment_tally_witness :
    ∃ t, (mkOkArticle [("title", PyVal.str "Up"),
            ("summary", PyVal.str "stock rises now")] 0 "Up").title = PyVal.str t ∧
      (mkOkArticle [("title", PyVal.str "Up"),
          ("summary", PyVal.str "stock rises now")] 0 "Up").sentiment_indicators =
        sentimentOf (pyLower (t ++ " " ++
          (mkOkArticle [("title", PyVal.str "Up"),
            ("summary", PyVal.str "stock rises now")] 0 "Up").full_content)) :=
  c5_sentiment_tally.1 scenarioItem1 0
    (mkOkArticle [("title", PyVal.str "Up"), ("summary", PyVal.str "stock rises now")] 0 "Up")
    { baseEffect [("title", PyVal.str "Up"), ("summary", PyVal.str "stock rises now")] with
        publisherAdds := [providerPublisher (dictGet [("title", PyVal.str "Up"),
          ("summary", PyVal.str "stock rises now")] "provider" (.dict []))],
        contentTypeAdds := [dictGet [("title", PyVal.str "Up"),
          ("summary", PyVal.str "stock rises now")] "contentType" (.str "STORY")] }
    (by rfl)

/-! ## Claim C6: field-level error containment (corrected) -/

/-- An item whose only flaw is a non-string `title` field. -/
def c6BadItem : PyVal := .dict [("content", .dict [("title", .int 5)])]

/-- C6 counterexample: for an item whose single bad field is a non-string
title, extraction of the whole item aborts — the emitted record is the inline
error record (raised at the `title + ' '` concatenation of line 854), and none
of the item's other fields is produced.  This refutes "a single bad field never
aborts extraction of the whole item". -/
theorem c6_counterexample :
    (processArticle c6BadItem 0).1 =
      Record.error
        { id := 1,
          error :=
            "Processing error: unsupported operand type(s) for +: \x27int\x27 and \x27str\x27",
          raw_preview := "\x7b\x27content\x27: \x7b\x27title\x27: 5\x7d\x7d..." } := by
  rfl

/-- C6 (amended): exceptions are contained at field level only for the
locally-guarded resolutions — in particular a link value on which `urlparse`
would raise (any truthy non-string) leaves `link_domain` at its safe default ''
while the rest of the record is still produced — and every item, failing or
not, yields exactly one record carrying its own 1-based sequence number (no
exception ever escapes an item); but an exception outside the guarded spots
(e.g. a non-string title at the sentiment concatenation) aborts the whole item
into an error record. -/
theorem c6_field_containment :
    (∀ (a : PyVal) (i : Nat) (d : ArticleData) (eff : ItemEffect),
        processArticle a i = (Record.article d, eff) →
        (∀ s, d.link ≠ PyVal.str s) → d.link_domain = "")
  ∧ (∀ (a : PyVal) (i : Nat), (processArticle a i).1.seq = i + 1) := by
  constructor
  · intro a i d eff h hne
    obtain ⟨c, t, _, _, hd, _⟩ := processArticle_ok_shape a i d eff h
    subst hd
    simp only [mkOkArticle] at hne ⊢
    cases hl : linkOf c with
    | str s => exact absurd hl (hne s)
    | none => simp [linkDomainOf, hl]
    | bool b => exact ite_self ""
    | int n => exact ite_self ""
    | list xs => exact ite_self ""
    | dict kvs => exact ite_self ""
  · intro a i
    cases h : processArticleCore a i with
    | mk res eff =>
      cases res with
      | ok d =>
        obtain ⟨c, t, _, _, hd, _⟩ :=
          processArticle_ok_shape a i d eff (by rw [processArticle, h])
        simp [processArticle, h, Record.seq, hd, mkOkArticle]
      | error e => simp [processArticle, h, Record.seq]

/-- The C6 witness item: a string title together with a link field on which
`urlparse` raises (an integer). -/
def c6LinkContent : List (String × PyVal) :=
  [("title", PyVal.str "t"), ("canonicalUrl", PyVal.int 7)]

/-- The C6 witness payload. -/
def c6LinkItem : PyVal := .dict [("content", .dict c6LinkContent)]

/-- C6 witness: the amended containment laws instantiated on the concrete
bad-link item (its record is produced, with an empty link domain) and on a
concrete index. -/
theorem c6_field_containment_witness :
    (mkOkArticle c6LinkContent 0 "t").link_domain = "" ∧
    (processArticle c6BadItem 3).1.seq = 4 :=
  ⟨c6_field_containment.1 c6LinkItem 0 (mkOkArticle c6LinkContent 0 "t")
      { baseEffect c6LinkContent with
          publisherAdds := [providerPublisher (dictGet c6LinkContent "provider" (.dict []))],
          contentTypeAdds := [dictGet c6LinkContent "contentType" (.str "STORY")] }
      (by rfl)
      (by intro s h; exact PyVal.noConfusion h),
   c6_field_containment.2 c6BadItem 3⟩

/-! ## Claim C7: empty-source handling (corrected) -/

/-- C7 counterexample: on an empty raw list the function does return a
structured result with zero articles and no exception, but the returned
payload carries no `content_analysis` entry at all — the aggregate is omitted,
not zeroed, refuting "a zeroed aggregate". -/
theorem c7_counterexample :
    (getUltraComprehensiveNews (some []) 10).aggregate = Option.none ∧
    (getUltraComprehensiveNews (some []) 10).articles = [] :=
  ⟨rfl, rfl⟩

/-- C7 (amended): an entirely empty or absent raw news list produces, without
any exception, the structured no-news result (status `'no_news'`,
`total_articles = 0`, empty `articles`, and the explanatory message); this
early return omits the aggregate block entirely rather than zeroing it. -/
theorem c7_no_news (allNews : Option (List PyVal)) (limit : Nat)
    (h : allNews = Option.none ∨ allNews = some []) :
    getUltraComprehensiveNews allNews limit =
      .noNews 0 [] "No news available from Yahoo Finance" := by
  rcases h with h | h <;> subst h <;> rfl

/-- C7 witness: the amended law at an absent list and at an empty list. -/
theorem c7_no_news_witness :
    getUltraComprehensiveNews Option.none 7 =
      .noNews 0 [] "No news available from Yahoo Finance" ∧
    getUltraComprehensiveNews (some []) 3 =
      .noNews 0 [] "No news available from Yahoo Finance" :=
  ⟨c7_no_news Option.none 7 (Or.inl rfl), c7_no_news (some []) 3 (Or.inr rfl)⟩

/-! ## Claim C8: timestamp normalization -/

/-- C8: a string `pubDate` passes through unchanged; any non-string value goes
through the fixed `_format_timestamp` formatter; an absent `pubDate` (default
0), a zero timestamp, and an unconvertible numeric timestamp all resolve to
"N/A" without raising; a convertible nonzero numeric timestamp yields the
`%Y-%m-%d %H:%M:%S` rendering. -/
theorem c8_timestamp_normalization :
    (∀ (c : List (String × PyVal)) (s : String),
        dictLookup c "pubDate" = some (PyVal.str s) → publishedDateOf c = s)
  ∧ (∀ (c : List (String × PyVal)) (v : PyVal),
        dictLookup c "pubDate" = some v → (∀ s, v ≠ PyVal.str s) →
        publishedDateOf c = formatTimestamp v)
  ∧ (∀ c : List (String × PyVal),
        dictLookup c "pubDate" = Option.none → publishedDateOf c = "N/A")
  ∧ formatTimestamp (PyVal.int 0) = "N/A"
  ∧ (∀ (n : Int) (err : PyErr),
        unixToDatetimeStr n = Except.error err →
        formatTimestamp (PyVal.int n) = "N/A")
  ∧ (∀ (n : Int) (s : String),
        unixToDatetimeStr n = Except.ok s → n ≠ 0 →
        formatTimestamp (PyVal.int n) = s) := by
  refine ⟨?_, ?_, ?_, rfl, ?_, ?_⟩
  · intro c s h
    simp [publishedDateOf, dictGet, h]
  · intro c v h hne
    unfold publishedDateOf dictGet
    rw [h]
    cases v with
    | str s => exact absurd rfl (hne s)
    | none => rfl
    | bool b => rfl
    | int n => rfl
    | list xs => rfl
    | dict kvs => rfl
  · intro c h
    simp [publishedDateOf, dictGet, h, formatTimestamp, PyVal.truthy]
  · intro n err h
    unfold formatTimestamp
    split
    · simp [h]
    · rfl
  · intro n s h hn
    unfold formatTimestamp
    split
    next htr => simp [h]
    next htr =>
      simp [PyVal.truthy] at htr
      exact absurd htr hn

/-- C8 witness: passthrough of a textual `pubDate`, the "N/A" sentinel for an
absent `pubDate` and for an out-of-range timestamp, and the formatted
rendering of a valid nonzero timestamp. -/
theorem c8_timestamp_normalization_witness :
    publishedDateOf [("pubDate", PyVal.str "2024-01-01T00:00:00Z")] =
      "2024-01-01T00:00:00Z" ∧
    publishedDateOf [("title", PyVal.str "x")] = "N/A" ∧
    formatTimestamp (PyVal.int 400000000000) = "N/A" ∧
    formatTimestamp (PyVal.int 86400) = "1970-01-02 00:00:00" :=
  ⟨c8_timestamp_normalization.1 _ "2024-01-01T00:00:00Z" rfl,
   c8_timestamp_normalization.2.2.1 _ rfl,
   c8_timestamp_normalization.2.2.2.2.1 400000000000
     ⟨"timestamp year out of range"⟩ rfl,
   (c8_timestamp_normalization.2.2.2.2.2 86400 "1970-01-02 00:00:00" rfl
     (by decide))⟩

/-! ## Claim C9: publisher resolution chain (corrected) -/

/-- C9 counterexample: in the batch pipeline (lines 773-780) the default
string is 'Unknown Source', not 'Unknown': a provider mapping without a
display name — and likewise a falsy non-mapping provider, which is not
stringified — resolve to 'Unknown Source'. -/
theorem c9_counterexample :
    providerPublisher (PyVal.dict []) = PyVal.str "Unknown Source" ∧
    providerPublisher (PyVal.dict []) ≠ PyVal.str "Unknown" ∧
    providerPublisher (PyVal.int 0) = PyVal.str "Unknown Source" := by
  refine ⟨rfl, ?_, rfl⟩
  intro h
  injection h with h
  exact absurd h (by decide)

/-- C9 (amended): in the ultra-comprehensive pipeline the publisher is the
provider mapping's `displayName` with default 'Unknown Source' when the
provider is a mapping, the stringified provider when it is truthy and not a
mapping, and 'Unknown Source' when it is falsy; the `get_news` variant (lines
245-246) uses 'Unknown' as the mapping default and stringifies every
non-mapping provider, falsy included. -/
theorem c9_publisher_resolution :
    (∀ m, providerPublisher (PyVal.dict m) =
        dictGet m "displayName" (PyVal.str "Unknown Source"))
  ∧ (∀ v : PyVal, v.truthy = true → (∀ m, v ≠ PyVal.dict m) →
      providerPublisher v = PyVal.str (pyStr v))
  ∧ (∀ v : PyVal, v.truthy = false → (∀ m, v ≠ PyVal.dict m) →
      providerPublisher v = PyVal.str "Unknown Source")
  ∧ (∀ m, getNewsPublisher (PyVal.dict m) =
        dictGet m "displayName" (PyVal.str "Unknown"))
  ∧ (∀ v : PyVal, (∀ m, v ≠ PyVal.dict m) →
      getNewsPublisher v = PyVal.str (pyStr v)) := by
  refine ⟨fun _ => rfl, ?_, ?_, fun _ => rfl, ?_⟩
  · intro v htr hne
    cases v with
    | dict kvs => exact absurd rfl (hne kvs)
    | none => exact absurd htr (by decide)
    | bool b => simp [providerPublisher, htr]
    | int n => simp [providerPublisher, htr]
    | str s => simp [providerPublisher, htr]
    | list xs => simp [providerPublisher, htr]
  · intro v htr hne
    cases v with
    | dict kvs => exact absurd rfl (hne kvs)
    | none => rfl
    | bool b => simp [providerPublisher, htr]
    | int n => simp [providerPublisher, htr]
    | str s => simp [providerPublisher, htr]
    | list xs => simp [providerPublisher, htr]
  · intro v hne
    cases v with
    | dict kvs => exact absurd rfl (hne kvs)
    | none => rfl
    | bool b => rfl
    | int n => rfl
    | str s => rfl
    | list xs => rfl

/-- C9 witness: the amended resolution chain at concrete providers of each
kind. -/
theorem c9_publisher_resolution_witness :
    providerPublisher (PyVal.dict [("displayName", PyVal.str "Reuters")]) =
      PyVal.str "Reuters" ∧
    providerPublisher (PyVal.str "AP") = PyVal.str "AP" ∧
    providerPublisher (PyVal.str "") = PyVal.str "Unknown Source" ∧
    getNewsPublisher (PyVal.dict []) = PyVal.str "Unknown" ∧
    getNewsPublisher (PyVal.str "") = PyVal.str "" :=
  ⟨(c9_publisher_resolution.1 [("displayName", PyVal.str "Reuters")]).trans rfl,
   (c9_publisher_resolution.2.1 (PyVal.str "AP") rfl
      (fun _ h => PyVal.noConfusion h)).trans rfl,
   c9_publisher_resolution.2.2.1 (PyVal.str "") rfl
      (fun _ h => PyVal.noConfusion h),
   (c9_publisher_resolution.2.2.2.1 []).trans rfl,
   (c9_publisher_resolution.2.2.2.2 (PyVal.str "")
      (fun _ h => PyVal.noConfusion h)).trans rfl⟩

/-! ## Claim C10: title placeholder only on an absent key -/

/-- C10: the synthetic placeholder `"Article {n}"` is substituted only when
the `title` key is entirely absent from the content mapping; any present value
— the empty string included — is kept unchanged. -/
theorem c10_title_placeholder :
    (∀ (c : List (String × PyVal)) (i : Nat) (v : PyVal),
        dictLookup c "title" = some v → titleOf c i = v)
  ∧ (∀ (c : List (String × PyVal)) (i : Nat),
        dictLookup c "title" = Option.none →
        titleOf c i = PyVal.str ("Article " ++ toString (i + 1)))
  ∧ titleOf [("title", PyVal.str "")] 4 = PyVal.str "" := by
  refine ⟨?_, ?_, rfl⟩
  · intro c i v h
    simp [titleOf, dictGet, h]
  · intro c i h
    simp [titleOf, dictGet, h]

/-- C10 witness: a present title is kept, an absent one yields the
placeholder. -/
theorem c10_title_placeholder_witness :
    titleOf [("title", PyVal.str "x")] 0 = PyVal.str "x" ∧
    titleOf [] 0 = PyVal.str "Article 1" :=
  ⟨c10_title_placeholder.1 [("title", PyVal.str "x")] 0 (PyVal.str "x") rfl,
   (c10_title_placeholder.2.1 [] 0 rfl).trans rfl⟩

end StockAI
